import Mathlib

/-!
Shallow embedding of `phantom/faces/faces.py`: the lazy model registry
(`_LazyStore`), the `Shape` hierarchy (5-point and 68-point landmark
partitions), the `Atlas` container with pickle persistence, and the
`detect` / `landmark` / `encode` pipeline.

External models (dlib detector, shape predictors, resnet encoder, gender
classifier) are opaque pretrained services; they are embedded as plain
functions stored in the registry.  Registry-touching code is modelled by
explicit state passing: each effectful operation returns its result (an
`Except` since the Python raises exceptions), the updated store, and the
number of factory invocations it performed.
-/

namespace Phantom

/-- Images are opaque handles: the wrapper never inspects pixel data. -/
abbrev Image := Nat

/-- A 2D landmark point `(x, y)`. -/
abbrev Point := Int × Int

/-- A face bounding box `(left, top, right, bottom)`. -/
abbrev Rect := Int × Int × Int × Int

/-- A 128-d face descriptor, abstracted to an integer vector. -/
abbrev Encoding := List Int

/-- The Python exceptions that the module's code paths can raise. -/
inductive PyErr where
  | keyError (msg : String)
  | indexError
  | typeError
  | fileNotFoundError
  | unpicklingError
deriving DecidableEq, Repr

/-- Embedding of `_LazyStore`: `dict` is the materialized-model cache and
`reg` maps keys to deferred construction recipes (`(initer, args, kwargs)`
closed over into a thunk). -/
structure LazyStore (α : Type) where
  dict : String → Option α
  reg  : String → Option (Unit → α)

namespace LazyStore

variable {α : Type}

/-- `_LazyStore()` with both dictionaries empty. -/
def empty : LazyStore α := ⟨fun _ => none, fun _ => none⟩

/-- `register(key, initer, *args, **kwargs)`: store the recipe under `key`. -/
def register (s : LazyStore α) (key : String) (f : Unit → α) : LazyStore α :=
  { s with reg := fun k => if k = key then some f else s.reg k }

/-- `get(key)`: return the cached value if present; otherwise look up the
recipe, run it, cache and return the result; raise
`KeyError("unregistered lazy key.")` when no recipe exists.  The third
component counts factory invocations performed by this call. -/
def get (s : LazyStore α) (key : String) :
    Except String α × LazyStore α × Nat :=
  match s.dict key with
  | some v => (.ok v, s, 0)
  | none =>
    match s.reg key with
    | none => (.error "unregistered lazy key.", s, 0)
    | some f =>
      let store := f ()
      (.ok store,
       { s with dict := fun k => if k = key then some store else s.dict k },
       1)

/-- Stores reachable from `_LazyStore()` by `register` and `get` calls. -/
inductive Reachable : LazyStore α → Prop where
  | init : Reachable empty
  | register (s : LazyStore α) (key : String) (f : Unit → α) :
      Reachable s → Reachable (s.register key f)
  | get (s : LazyStore α) (key : String) :
      Reachable s → Reachable (s.get key).2.1

/-- In a reachable store every cached key has a registered recipe: `get`
only ever caches under keys found in `reg`, and `register` never removes
a recipe. -/
theorem Reachable.dict_subset_reg {s : LazyStore α} (h : Reachable s)
    (k : String) (hk : s.reg k = none) : s.dict k = none := by
  induction h with
  | init => rfl
  | register s' key f _ ih =>
    have hk' : s'.reg k = none := by
      by_cases hkk : k = key
      · exfalso
        simp [LazyStore.register, hkk] at hk
      · simpa [LazyStore.register, hkk] using hk
    simpa [LazyStore.register] using ih hk'
  | get s' key _ ih =>
    unfold LazyStore.get
    unfold LazyStore.get at hk
    cases hd : s'.dict key with
    | some v => simp [hd] at hk ⊢; exact ih (by simpa [hd] using hk)
    | none =>
      cases hr : s'.reg key with
      | none => simp [hd, hr] at hk ⊢; exact ih (by simpa [hd, hr] using hk)
      | some f =>
        simp [hd, hr] at hk ⊢
        by_cases hkk : k = key
        · subst hkk; simp [hk] at hr
        · simp [hkk]
          exact ih (by simpa [hd, hr] using hk)

end LazyStore

/-! ## The Shape hierarchy -/

/-- The two `Shape` subclasses, `Shape5p` and `Shape68p`. -/
inductive ShapeVariant where
  | p5
  | p68
deriving DecidableEq, Repr

/-- Python forward slice `l[a:b]` (step 1): clamped, never raising. -/
def pySlice {α : Type} (l : List α) (a b : Nat) : List α :=
  (l.drop a).take (b - a)

/-- `Shape5p._make_dict`: `{"eye_left": p[0:2], "eye_right": p[2:4],
"nose": [p[4]]}`.  The single direct index `p[4]` raises `IndexError`
when fewer than 5 points are supplied, hence the `Option`. -/
def mkDict5 (p : List Point) : Option (List (String × List Point)) :=
  match p.get? 4 with
  | none => none
  | some p4 =>
    some [("eye_left",  pySlice p 0 2),
          ("eye_right", pySlice p 2 4),
          ("nose",      [p4])]

/-- `Shape68p._make_dict`.  The slices never raise; the direct indices
`p[48]` and `p[60]` in `lips_bottom` raise `IndexError` when absent.
A Python negative-step slice `p[i:j:-1]` (with `i > j`) walks indices
`i, i-1, ..., j+1` clamped from above, which equals `reversed(p[j+1:i+1])`:
so `p[64:59:-1]` is `(pySlice p 60 65).reverse` and `p[67:63:-1]` is
`(pySlice p 64 68).reverse`. -/
def mkDict68 (p : List Point) : Option (List (String × List Point)) :=
  match p.get? 48, p.get? 60 with
  | some p48, some p60 =>
    some [("jawline",       pySlice p 0 17),
          ("eyebrow_right", pySlice p 17 22),
          ("eyebrow_left",  pySlice p 22 27),
          ("nose_bridge",   pySlice p 27 31),
          ("nose_tip",      pySlice p 31 36),
          ("eye_right",     pySlice p 36 42),
          ("eye_left",      pySlice p 42 48),
          ("lips_top",      pySlice p 48 55 ++ (pySlice p 60 65).reverse),
          ("lips_bottom",   pySlice p 54 60 ++ [p48, p60] ++ (pySlice p 64 68).reverse)]
  | _, _ => none

/-- Dispatch `_make_dict` on the variant. -/
def mkDict : ShapeVariant → List Point → Option (List (String × List Point))
  | .p5, p => mkDict5 p
  | .p68, p => mkDict68 p

/-- The registry key each variant's `__init__` materializes. -/
def ShapeVariant.predictorKey : ShapeVariant → String
  | .p5 => "shape_predictor_5p"
  | .p68 => "shape_predictor_68p"

/-- Smallest point count for which `_make_dict` does not raise:
`Shape5p` dereferences index 4, `Shape68p` dereferences index 60. -/
def ShapeVariant.minPoints : ShapeVariant → Nat
  | .p5 => 5
  | .p68 => 61

/-- The landmark count the variant's predictor model produces. -/
def ShapeVariant.pointCount : ShapeVariant → Nat
  | .p5 => 5
  | .p68 => 68

/-- The opaque external dlib models a registry slot can hold. -/
inductive DlibModel where
  | detector  (f : Image → Nat → List Rect)
  | predictor (f : Image → Rect → List Point)
  | encoder   (f : Image → List Point → Nat → Encoding)
  | gender    (f : Encoding → Int)

/-- A constructed `Shape`: its point list, the `_make_dict` region map,
and the predictor handle its `__init__` fetched from the registry. -/
structure Shape where
  points : List Point
  dict   : List (String × List Point)
  model  : DlibModel

/-- `Shape5p(points)` / `Shape68p(points)`: `Shape.__init__` stores the
points and runs `_make_dict` (which may raise `IndexError`); the subclass
then binds `self.model = lazy_vars.get(<predictor key>)` (which may raise
`KeyError`).  No point-count validation is performed anywhere. -/
def mkShape (v : ShapeVariant) (points : List Point) (s : LazyStore DlibModel) :
    Except PyErr Shape × LazyStore DlibModel × Nat :=
  match mkDict v points with
  | none => (.error .indexError, s, 0)
  | some d =>
    match s.get v.predictorKey with
    | (.error e, s', n) => (.error (.keyError e), s', n)
    | (.ok m, s', n) => (.ok ⟨points, d, m⟩, s', n)

/-! ## The detection / landmark / encoding pipeline -/

/-- `_rect_to_tuple`: dlib rectangles are modelled by their 4-tuples, so
the conversion is the identity. -/
def rect_to_tuple (r : Rect) : Rect := r

/-- `_tuple_to_rect`, the inverse conversion, likewise the identity. -/
def tuple_to_rect (t : Rect) : Rect := t

/-- Calling a registry slot as a frontal-face detector; any other kind of
object would raise a `TypeError` in Python. -/
def DlibModel.runDetector : DlibModel → Image → Nat → Except PyErr (List Rect)
  | .detector f, img, u => .ok (f img u)
  | _, _, _ => .error .typeError

/-- Calling a registry slot as a shape predictor `model(img, rect)`. -/
def DlibModel.runPredictor : DlibModel → Image → Rect → Except PyErr (List Point)
  | .predictor f, img, r => .ok (f img r)
  | _, _, _ => .error .typeError

/-- Calling a registry slot as `face_encoder.compute_face_descriptor`. -/
def DlibModel.runEncoder : DlibModel → Image → List Point → Nat → Except PyErr Encoding
  | .encoder f, img, pts, j => .ok (f img pts j)
  | _, _, _, _ => .error .typeError

/-- `detect(img, *, upsample=1)`: materialize `"face_detector"` from the
registry and return `[_rect_to_tuple(r) for r in face_detector(img, upsample)]`. -/
def detect (s : LazyStore DlibModel) (img : Image) (upsample : Nat) :
    Except PyErr (List Rect) × LazyStore DlibModel × Nat :=
  match s.get "face_detector" with
  | (.error e, s', n) => (.error (.keyError e), s', n)
  | (.ok m, s', n) =>
    match m.runDetector img upsample with
    | .error e => (.error e, s', n)
    | .ok rects => (.ok (rects.map rect_to_tuple), s', n)

/-- `[(i, i) for i in range(68)]`, the throwaway point list `landmark` and
`encode` feed to the `Shape` constructor just to obtain a model handle. -/
def range68pts : List Point := (List.range 68).map (fun i => ((i : Int), (i : Int)))

/-- `[model(img, _tuple_to_rect(loc)) for loc in locations]`: one predictor
run per location, in order. -/
def predictAll (m : DlibModel) (img : Image) :
    List Rect → Except PyErr (List (List Point))
  | [] => .ok []
  | loc :: rest =>
    match m.runPredictor img (tuple_to_rect loc) with
    | .error e => .error e
    | .ok pts =>
      match predictAll m img rest with
      | .error e => .error e
      | .ok ptss => .ok (pts :: ptss)

/-- `[class_([(p.x, p.y) for p in face.parts()]) for face in shapelist]`:
one `Shape` construction per predicted point list, threading the registry
state and summing factory invocations. -/
def mkShapes (v : ShapeVariant) (s : LazyStore DlibModel) :
    List (List Point) → Except PyErr (List Shape) × LazyStore DlibModel × Nat
  | [] => (.ok [], s, 0)
  | pts :: rest =>
    match mkShape v pts s with
    | (.error e, s', n) => (.error e, s', n)
    | (.ok sh, s', n) =>
      match mkShapes v s' rest with
      | (.error e, s'', n') => (.error e, s'', n + n')
      | (.ok shs, s'', n') => (.ok (sh :: shs), s'', n + n')

/-- `landmark(img, *, locations=None, model=Shape68p, upsample=1)`:
detect when `locations` is `None` (forwarding `upsample`), construct a
throwaway `Shape` to fetch the predictor handle, run the predictor over
every location, then build one `Shape` per result. -/
def landmark (s : LazyStore DlibModel) (img : Image) (locations : Option (List Rect))
    (model : ShapeVariant) (upsample : Nat) :
    Except PyErr (List Shape) × LazyStore DlibModel × Nat :=
  match (match locations with
         | none => detect s img upsample
         | some L => (.ok L, s, 0)) with
  | (.error e, s1, n1) => (.error e, s1, n1)
  | (.ok locs, s1, n1) =>
    match mkShape model range68pts s1 with
    | (.error e, s2, n2) => (.error e, s2, n1 + n2)
    | (.ok shaper, s2, n2) =>
      match predictAll shaper.model img locs with
      | .error e => (.error e, s2, n1 + n2)
      | .ok ptss =>
        match mkShapes model s2 ptss with
        | (.error e, s3, n3) => (.error e, s3, n1 + n2 + n3)
        | (.ok shapes, s3, n3) => (.ok shapes, s3, n1 + n2 + n3)

/-- One `face_encoder.compute_face_descriptor(img, shape, jitter)` call per
predicted shape, in order. -/
def encodeAll (m : DlibModel) (img : Image) (jitter : Nat) :
    List (List Point) → Except PyErr (List Encoding)
  | [] => .ok []
  | pts :: rest =>
    match m.runEncoder img pts jitter with
    | .error e => .error e
    | .ok enc =>
      match encodeAll m img jitter rest with
      | .error e => .error e
      | .ok encs => .ok (enc :: encs)

/-- `encode(img, *, locations=None, model=Shape68p, jitter=1)`: when
`locations` is `None` it calls `detect(img)` — with dlib's default
`upsample=1`, there being no upsample parameter to forward — then builds
the throwaway `Shape`, fetches `"face_encoder"`, runs the predictor per
location and encodes each resulting shape. -/
def encode (s : LazyStore DlibModel) (img : Image) (locations : Option (List Rect))
    (model : ShapeVariant) (jitter : Nat) :
    Except PyErr (List Encoding) × LazyStore DlibModel × Nat :=
  match (match locations with
         | none => detect s img 1
         | some L => (.ok L, s, 0)) with
  | (.error e, s1, n1) => (.error e, s1, n1)
  | (.ok locs, s1, n1) =>
    match mkShape model range68pts s1 with
    | (.error e, s2, n2) => (.error e, s2, n1 + n2)
    | (.ok shaper, s2, n2) =>
      match s2.get "face_encoder" with
      | (.error e, s3, n3) => (.error (.keyError e), s3, n1 + n2 + n3)
      | (.ok fenc, s3, n3) =>
        match predictAll shaper.model img locs with
        | .error e => (.error e, s3, n1 + n2 + n3)
        | .ok ptss =>
          match encodeAll fenc img jitter ptss with
          | .error e => (.error e, s3, n1 + n2 + n3)
          | .ok encs => (.ok encs, s3, n1 + n2 + n3)

/-- Module initialization: `lazy_vars = _LazyStore()` followed by the five
`register` calls, parameterized by the opaque external model constructors
(dlib's detector, resnet encoder, pickled gender model, two predictors). -/
def lazyVarsInit (det : Image → Nat → List Rect)
    (enc : Image → List Point → Nat → Encoding) (gen : Encoding → Int)
    (sp5 sp68 : Image → Rect → List Point) : LazyStore DlibModel :=
  (((((LazyStore.empty).register "face_detector" (fun _ => .detector det)).register
      "face_encoder" (fun _ => .encoder enc)).register
      "gender_model" (fun _ => .gender gen)).register
      "shape_predictor_5p" (fun _ => .predictor sp5)).register
      "shape_predictor_68p" (fun _ => .predictor sp68)

/-! ## Concrete sample models and stores for witnesses -/

/-- A sample detector: one fixed box per image. -/
def sampleDet : Image → Nat → List Rect := fun _ _ => [(0, 0, 10, 10)]

/-- A sample encoder: a fixed 1-entry descriptor. -/
def sampleEnc : Image → List Point → Nat → Encoding := fun _ _ j => [(j : Int)]

/-- A sample gender classifier. -/
def sampleGen : Encoding → Int := fun _ => 0

/-- A sample 5-point predictor: five points derived from the box corner. -/
def sampleSp5 : Image → Rect → List Point :=
  fun _ r => (List.range 5).map (fun i => (r.1 + (i : Int), r.2.1))

/-- A sample 68-point predictor: 68 points derived from the box corner. -/
def sampleSp68 : Image → Rect → List Point :=
  fun _ r => (List.range 68).map (fun i => (r.1 + (i : Int), r.2.1))

/-- The module-level `lazy_vars` store over the sample models. -/
def samplePipelineStore : LazyStore DlibModel :=
  lazyVarsInit sampleDet sampleEnc sampleGen sampleSp5 sampleSp68

end Phantom

namespace Phantom

/-! ## Claim theorems about the registry -/

/-- C2: for a key whose recipe is registered but not yet materialized,
calling `get` twice returns the identical materialized instance on both
calls; the factory runs exactly once, on the first call. -/
theorem lazyStore_get_twice_singleton {α : Type} (s : LazyStore α)
    (k : String) (f : Unit → α)
    (hdict : s.dict k = none) (hreg : s.reg k = some f) :
    (s.get k).1 = .ok (f ()) ∧
    ((s.get k).2.1.get k).1 = .ok (f ()) ∧
    (s.get k).2.2 = 1 ∧
    ((s.get k).2.1.get k).2.2 = 0 ∧
    ((s.get k).2.1.get k).2.1 = (s.get k).2.1 := by
  constructor
  · simp [LazyStore.get, hdict, hreg]
  constructor
  · simp [LazyStore.get, hdict, hreg]
  constructor
  · simp [LazyStore.get, hdict, hreg]
  constructor
  · simp [LazyStore.get, hdict, hreg]
  · simp [LazyStore.get, hdict, hreg]

/-- A small concrete store for witnesses: one registered key. -/
def sampleNatStore : LazyStore Nat := LazyStore.empty.register "det" (fun _ => 7)

/-- Witness for C2 at a concrete store and key. -/
theorem lazyStore_get_twice_singleton_witness :
    (sampleNatStore.get "det").1 = .ok 7 ∧
    ((sampleNatStore.get "det").2.1.get "det").1 = .ok 7 ∧
    (sampleNatStore.get "det").2.2 = 1 ∧
    ((sampleNatStore.get "det").2.1.get "det").2.2 = 0 ∧
    ((sampleNatStore.get "det").2.1.get "det").2.1 = (sampleNatStore.get "det").2.1 :=
  lazyStore_get_twice_singleton sampleNatStore "det" (fun _ => 7) rfl rfl

/-- C6: `get` on a key that was never registered raises
`KeyError("unregistered lazy key.")`, leaves the store unchanged (no
sentinel is cached) and runs no factory; since the store is unchanged,
every repeated call fails identically. -/
theorem lazyStore_get_unregistered_fails {α : Type} (s : LazyStore α)
    (k : String) (hR : LazyStore.Reachable s) (hreg : s.reg k = none) :
    s.get k = (.error "unregistered lazy key.", s, 0) := by
  have hd : s.dict k = none := hR.dict_subset_reg k hreg
  simp [LazyStore.get, hd, hreg]

/-- Witness for C6 at a concrete reachable store and unregistered key. -/
theorem lazyStore_get_unregistered_fails_witness :
    sampleNatStore.get "nope" = (.error "unregistered lazy key.", sampleNatStore, 0) :=
  lazyStore_get_unregistered_fails sampleNatStore "nope"
    (LazyStore.Reachable.register LazyStore.empty "det" (fun _ => 7)
      LazyStore.Reachable.init) rfl

/-! ## Helper lemmas for the Shape and pipeline claims -/

theorem LazyStore.get_cached {α : Type} (s : LazyStore α) (k : String) (m : α)
    (h : s.dict k = some m) : s.get k = (.ok m, s, 0) := by
  simp [LazyStore.get, h]

theorem LazyStore.get_reg_ok {α : Type} (s : LazyStore α) (k : String) (f : Unit → α)
    (h : s.reg k = some f) :
    ∃ m, (s.get k).1 = .ok m ∧ ((s.get k).2.1).dict k = some m ∧
      ((s.get k).2.1).reg = s.reg := by
  unfold LazyStore.get
  cases hd : s.dict k with
  | some v => exact ⟨v, rfl, hd, rfl⟩
  | none =>
    rw [h]
    exact ⟨f (), rfl, by simp, rfl⟩

theorem LazyStore.get_ok_cached {α : Type} (s : LazyStore α) (k : String) (m : α)
    (h : (s.get k).1 = .ok m) :
    ((s.get k).2.1).dict k = some m ∧ ((s.get k).2.1).reg = s.reg := by
  cases hd : s.dict k with
  | some v =>
    rw [LazyStore.get_cached s k v hd] at h ⊢
    cases h
    exact ⟨hd, rfl⟩
  | none =>
    cases hr : s.reg k with
    | none => simp [LazyStore.get, hd, hr] at h
    | some f =>
      simp only [LazyStore.get, hd, hr] at h
      cases h
      simp [LazyStore.get, hd, hr]

theorem mkDict_isSome_of_le (v : ShapeVariant) (pts : List Point)
    (h : v.minPoints ≤ pts.length) : (mkDict v pts).isSome = true := by
  cases v with
  | p5 =>
    have h4 : 4 < pts.length := by
      have h5 : (5 : Nat) ≤ pts.length := h
      omega
    show (mkDict5 pts).isSome = true
    unfold mkDict5
    rw [List.get?_eq_get h4]
    rfl
  | p68 =>
    have h61 : (61 : Nat) ≤ pts.length := h
    have h48 : 48 < pts.length := by omega
    have h60 : 60 < pts.length := by omega
    show (mkDict68 pts).isSome = true
    unfold mkDict68
    rw [List.get?_eq_get h48, List.get?_eq_get h60]
    rfl

theorem mkDict_some_of_le (v : ShapeVariant) (pts : List Point)
    (h : v.minPoints ≤ pts.length) : ∃ d, mkDict v pts = some d :=
  Option.isSome_iff_exists.mp (mkDict_isSome_of_le v pts h)

theorem mkDict_none_of_lt (v : ShapeVariant) (pts : List Point)
    (h : pts.length < v.minPoints) : mkDict v pts = none := by
  cases v with
  | p5 =>
    have h5 : pts.length < 5 := h
    have h4 : pts.get? 4 = none := List.get?_eq_none.mpr (by omega)
    show mkDict5 pts = none
    unfold mkDict5
    rw [h4]
  | p68 =>
    have h61 : pts.length < 61 := h
    have h60 : pts.get? 60 = none := List.get?_eq_none.mpr (by omega)
    show mkDict68 pts = none
    unfold mkDict68
    rw [h60]
    cases h48 : pts.get? 48 <;> rfl

theorem minPoints_le_pointCount (v : ShapeVariant) :
    v.minPoints ≤ v.pointCount := by
  cases v <;> decide

theorem LazyStore.get_dict_mono {α : Type} (s : LazyStore α) (k k' : String)
    (m : α) (h : s.dict k' = some m) :
    (((s.get k).2.1).dict k').isSome = true := by
  unfold LazyStore.get
  cases hd : s.dict k with
  | some v => simp [h]
  | none =>
    cases hr : s.reg k with
    | none => simp [h]
    | some f =>
      by_cases hkk : k' = k
      · subst hkk; simp
      · simp [hkk, h]

theorem predictAll_predictor (g : Image → Rect → List Point) (img : Image)
    (L : List Rect) :
    predictAll (.predictor g) img L =
      .ok (L.map (fun loc => g img (tuple_to_rect loc))) := by
  induction L with
  | nil => rfl
  | cons loc rest ih => simp [predictAll, DlibModel.runPredictor, ih]

theorem mkShape_cached (v : ShapeVariant) (pts : List Point)
    (s : LazyStore DlibModel) (m : DlibModel)
    (hc : s.dict v.predictorKey = some m) (hlen : v.minPoints ≤ pts.length) :
    ∃ d, mkDict v pts = some d ∧ mkShape v pts s = (.ok ⟨pts, d, m⟩, s, 0) := by
  obtain ⟨d, hd⟩ := mkDict_some_of_le v pts hlen
  refine ⟨d, hd, ?_⟩
  simp [mkShape, hd, LazyStore.get_cached s v.predictorKey m hc]

theorem mkShapes_cached (v : ShapeVariant) (s : LazyStore DlibModel) (m : DlibModel)
    (hc : s.dict v.predictorKey = some m) (ptss : List (List Point))
    (hall : ∀ pts ∈ ptss, v.minPoints ≤ pts.length) :
    ∃ shapes, mkShapes v s ptss = (.ok shapes, s, 0) ∧
      shapes.map Shape.points = ptss := by
  induction ptss with
  | nil => exact ⟨[], rfl, rfl⟩
  | cons pts rest ih =>
    obtain ⟨d, _, hms⟩ := mkShape_cached v pts s m hc (hall pts (by simp))
    obtain ⟨shs, hrec, hmap⟩ := ih (fun p hp => hall p (by simp [hp]))
    refine ⟨⟨pts, d, m⟩ :: shs, ?_, by simp [hmap]⟩
    simp [mkShapes, hms, hrec]

/-! ## Claim theorems about the Shape hierarchy -/

/-- C1: for a 68-point list `P`, the region map of `Shape68p` satisfies
`dict["jawline"] = P[0:17]`, `dict["nose_bridge"] = P[27:31]`, and
`dict["lips_top"]` is the splice of `P[48:55]` with `P[60:65]` reversed. -/
theorem shape68_region_partition (pts : List Point) (h : pts.length = 68) :
    (mkDict68 pts).isSome = true ∧
    ∀ d, mkDict68 pts = some d →
      List.lookup "jawline" d = some (pts.take 17) ∧
      List.lookup "nose_bridge" d = some ((pts.drop 27).take 4) ∧
      List.lookup "lips_top" d =
        some ((pts.drop 48).take 7 ++ ((pts.drop 60).take 5).reverse) := by
  have h48 : pts.get? 48 = some (pts.get ⟨48, by omega⟩) := List.get?_eq_get (by omega)
  have h60 : pts.get? 60 = some (pts.get ⟨60, by omega⟩) := List.get?_eq_get (by omega)
  constructor
  · unfold mkDict68
    rw [h48, h60]
    rfl
  · intro d hd
    unfold mkDict68 at hd
    rw [h48, h60] at hd
    injection hd with hd
    subst hd
    exact ⟨rfl, rfl, rfl⟩

/-- Witness for C1 at the concrete point list `[(0,0), …, (67,67)]`. -/
theorem shape68_region_partition_witness :
    (mkDict68 range68pts).isSome = true ∧
    ∀ d, mkDict68 range68pts = some d →
      List.lookup "jawline" d = some (range68pts.take 17) ∧
      List.lookup "nose_bridge" d = some ((range68pts.drop 27).take 4) ∧
      List.lookup "lips_top" d =
        some ((range68pts.drop 48).take 7 ++ ((range68pts.drop 60).take 5).reverse) :=
  shape68_region_partition range68pts rfl

/-- `[(i, i) for i in range(7)]`, a wrong-length input for `Shape5p`. -/
def sevenPoints : List Point := (List.range 7).map (fun i => ((i : Int), (i : Int)))

/-- C4 counterexample: `Shape5p` constructed from a 7-point list succeeds
and holds 7 points — the claimed failure on non-5/68 lengths does not
occur, as no point-count validation exists. -/
theorem shape5_seven_points_succeeds :
    (∃ sh, (mkShape ShapeVariant.p5 sevenPoints samplePipelineStore).1 = .ok sh ∧
      sh.points = sevenPoints) ∧ sevenPoints.length ≠ 5 :=
  ⟨⟨_, rfl, rfl⟩, by decide⟩

/-- C4 (amended): a constructed `Shape` holds exactly the points it was
given; construction succeeds precisely when the list is long enough for
the indices `_make_dict` dereferences (5 points for `Shape5p`, 61 for
`Shape68p`) and raises `IndexError` below that threshold — the exact
counts 5 and 68 are not enforced. -/
theorem mkShape_point_threshold (v : ShapeVariant) (pts : List Point)
    (s : LazyStore DlibModel) (f : Unit → DlibModel)
    (hreg : s.reg v.predictorKey = some f) :
    (v.minPoints ≤ pts.length →
      ∃ sh, (mkShape v pts s).1 = .ok sh ∧ sh.points = pts) ∧
    (pts.length < v.minPoints → (mkShape v pts s).1 = .error .indexError) := by
  constructor
  · intro hle
    obtain ⟨d, hd⟩ := mkDict_some_of_le v pts hle
    obtain ⟨m, h1, _, _⟩ := LazyStore.get_reg_ok s v.predictorKey f hreg
    rcases hg : s.get v.predictorKey with ⟨r, s', n⟩
    rw [hg] at h1
    have h1' : r = .ok m := h1
    subst h1'
    exact ⟨⟨pts, d, m⟩, by simp [mkShape, hd, hg], rfl⟩
  · intro hlt
    simp [mkShape, mkDict_none_of_lt v pts hlt]

/-- Witness for C4 (amended) at the 7-point list and the sample store. -/
theorem mkShape_point_threshold_witness :
    (ShapeVariant.p5.minPoints ≤ sevenPoints.length →
      ∃ sh, (mkShape ShapeVariant.p5 sevenPoints samplePipelineStore).1 = .ok sh ∧
        sh.points = sevenPoints) ∧
    (sevenPoints.length < ShapeVariant.p5.minPoints →
      (mkShape ShapeVariant.p5 sevenPoints samplePipelineStore).1 = .error .indexError) :=
  mkShape_point_threshold ShapeVariant.p5 sevenPoints samplePipelineStore
    (fun _ => .predictor sampleSp5) rfl

/-! ## Claim theorems about the pipeline -/

/-- C3 counterexample: on the fresh module store, `landmark` with an
explicitly empty `locations` list does return the empty list, but a model
factory runs (count 1) and the 68-point predictor entry ends up cached —
refuting "no registry entry is materialized and no model factory is run". -/
theorem landmark_empty_locations_materializes :
    (landmark samplePipelineStore 0 (some []) ShapeVariant.p68 1).2.2 = 1 ∧
    (((landmark samplePipelineStore 0 (some []) ShapeVariant.p68 1).2.1).dict
        "shape_predictor_68p").isSome = true ∧
    (landmark samplePipelineStore 0 (some []) ShapeVariant.p68 1).1 = .ok [] :=
  ⟨rfl, rfl, rfl⟩

/-- C3 (amended): with an explicitly empty `locations` list, `landmark` and
`encode` return empty lists and run no per-location inference, but the
throwaway `Shape` construction still calls the registry: the variant's
predictor entry is materialized (running its factory when not yet cached),
and `encode` additionally materializes `"face_encoder"`. -/
theorem landmark_encode_empty_locations (s : LazyStore DlibModel)
    (img : Image) (v : ShapeVariant) (u j : Nat) (fp fe : Unit → DlibModel)
    (hp : s.reg v.predictorKey = some fp)
    (he : s.reg "face_encoder" = some fe) :
    ((landmark s img (some []) v u).1 = .ok [] ∧
     (((landmark s img (some []) v u).2.1).dict v.predictorKey).isSome = true) ∧
    ((encode s img (some []) v j).1 = .ok [] ∧
     (((encode s img (some []) v j).2.1).dict v.predictorKey).isSome = true ∧
     (((encode s img (some []) v j).2.1).dict "face_encoder").isSome = true) := by
  have hlen68 : v.minPoints ≤ range68pts.length := by cases v <;> decide
  obtain ⟨d, hd⟩ := mkDict_some_of_le v range68pts hlen68
  obtain ⟨m, h1, hcache, hregeq⟩ := LazyStore.get_reg_ok s v.predictorKey fp hp
  rcases hg : s.get v.predictorKey with ⟨r, s2, n2⟩
  rw [hg] at h1 hcache hregeq
  have h1' : r = .ok m := h1
  subst h1'
  have hcache' : s2.dict v.predictorKey = some m := hcache
  have hregeq' : s2.reg = s.reg := hregeq
  have hmk : mkShape v range68pts s = (.ok ⟨range68pts, d, m⟩, s2, n2) := by
    simp [mkShape, hd, hg]
  constructor
  · constructor
    · simp [landmark, hmk, predictAll, mkShapes]
    · simp [landmark, hmk, predictAll, mkShapes, hcache']
  · obtain ⟨me, he1, hecache, heregeq⟩ :=
      LazyStore.get_reg_ok s2 "face_encoder" fe (by rw [hregeq']; exact he)
    have hpmono := LazyStore.get_dict_mono s2 "face_encoder" v.predictorKey m hcache'
    rcases hge : s2.get "face_encoder" with ⟨re, s3, n3⟩
    rw [hge] at he1 hecache heregeq hpmono
    have he1' : re = .ok me := he1
    subst he1'
    have hecache' : s3.dict "face_encoder" = some me := hecache
    have hpmono' : (s3.dict v.predictorKey).isSome = true := hpmono
    refine ⟨?_, ?_, ?_⟩
    · simp [encode, hmk, hge, predictAll, encodeAll]
    · simp [encode, hmk, hge, predictAll, encodeAll, hpmono']
    · simp [encode, hmk, hge, predictAll, encodeAll, hecache']

/-- Witness for C3 (amended) at the 5-point variant over the sample store. -/
theorem landmark_encode_empty_locations_witness :
    ((landmark samplePipelineStore 0 (some []) ShapeVariant.p5 2).1 = .ok [] ∧
     (((landmark samplePipelineStore 0 (some []) ShapeVariant.p5 2).2.1).dict
         ShapeVariant.p5.predictorKey).isSome = true) ∧
    ((encode samplePipelineStore 0 (some []) ShapeVariant.p5 3).1 = .ok [] ∧
     (((encode samplePipelineStore 0 (some []) ShapeVariant.p5 3).2.1).dict
         ShapeVariant.p5.predictorKey).isSome = true ∧
     (((encode samplePipelineStore 0 (some []) ShapeVariant.p5 3).2.1).dict
         "face_encoder").isSome = true) :=
  landmark_encode_empty_locations samplePipelineStore 0 ShapeVariant.p5 2 3
    (fun _ => .predictor sampleSp5) (fun _ => .encoder sampleEnc) rfl rfl

/-- C9: with an explicit `locations` list `L` and a registry get yielding a
predictor that emits the variant's landmark count, `landmark` succeeds
with one `Shape` per location, order preserved: the result's length is
`len(L)` and its i-th shape's points are the predictor's output on the
i-th location. -/
theorem landmark_length_order (s : LazyStore DlibModel) (img : Image)
    (v : ShapeVariant) (u : Nat) (L : List Rect) (g : Image → Rect → List Point)
    (hget : (s.get v.predictorKey).1 = .ok (.predictor g))
    (hlen : ∀ loc : Rect, (g img (tuple_to_rect loc)).length = v.pointCount) :
    ∃ shapes s' n, landmark s img (some L) v u = (.ok shapes, s', n) ∧
      shapes.length = L.length ∧
      shapes.map Shape.points = L.map (fun loc => g img (tuple_to_rect loc)) := by
  have hlen68 : v.minPoints ≤ range68pts.length := by cases v <;> decide
  obtain ⟨d, hd⟩ := mkDict_some_of_le v range68pts hlen68
  obtain ⟨hcache, -⟩ := LazyStore.get_ok_cached s v.predictorKey _ hget
  rcases hg : s.get v.predictorKey with ⟨r, s2, n2⟩
  rw [hg] at hget hcache
  have h1' : r = .ok (.predictor g) := hget
  subst h1'
  have hmk : mkShape v range68pts s = (.ok ⟨range68pts, d, .predictor g⟩, s2, n2) := by
    simp [mkShape, hd, hg]
  have hpa := predictAll_predictor g img L
  obtain ⟨shapes, hms, hmap⟩ := mkShapes_cached v s2 (.predictor g) hcache
      (L.map (fun loc => g img (tuple_to_rect loc)))
      (by
        intro pts hpts
        obtain ⟨loc, hloc, rfl⟩ := List.mem_map.mp hpts
        rw [hlen loc]
        exact minPoints_le_pointCount v)
  refine ⟨shapes, s2, n2, ?_, ?_, ?_⟩
  · simp [landmark, hmk, hpa, hms]
  · simpa using congrArg List.length hmap
  · exact hmap

/-- Witness for C9 at two concrete locations over the sample store. -/
theorem landmark_length_order_witness :
    ∃ shapes s' n,
      landmark samplePipelineStore 0 (some [(1, 2, 3, 4), (5, 6, 7, 8)])
        ShapeVariant.p68 1 = (.ok shapes, s', n) ∧
      shapes.length = [((1 : Int), (2 : Int), (3 : Int), (4 : Int)), (5, 6, 7, 8)].length ∧
      shapes.map Shape.points =
        [((1 : Int), (2 : Int), (3 : Int), (4 : Int)), (5, 6, 7, 8)].map
          (fun loc => sampleSp68 0 (tuple_to_rect loc)) :=
  landmark_length_order samplePipelineStore 0 ShapeVariant.p68 1
    [(1, 2, 3, 4), (5, 6, 7, 8)] sampleSp68 rfl (fun _ => rfl)

/-- C5: when `locations` is omitted (`None`), `encode` resolves the
locations by calling `detect` with the default upsample factor 1 — there
is no upsample parameter to `encode` for a caller to forward — and then
behaves exactly like the explicit-locations call on `detect`'s result;
`landmark`, by contrast, forwards its own `upsample` argument to
`detect`. -/
theorem encode_omitted_locations_default_upsample (s : LazyStore DlibModel)
    (img : Image) (v : ShapeVariant) (j u : Nat) :
    (encode s img none v j =
      match detect s img 1 with
      | (.error e, s1, n1) => (.error e, s1, n1)
      | (.ok L, s1, n1) =>
        match encode s1 img (some L) v j with
        | (r, s2, n2) => (r, s2, n1 + n2)) ∧
    (landmark s img none v u =
      match detect s img u with
      | (.error e, s1, n1) => (.error e, s1, n1)
      | (.ok L, s1, n1) =>
        match landmark s1 img (some L) v u with
        | (r, s2, n2) => (r, s2, n1 + n2)) := by
  constructor
  · rcases hdet : detect s img 1 with ⟨r1, s1, n1⟩
    cases r1 with
    | error e => simp [encode, hdet]
    | ok L =>
      simp only [encode, hdet]
      rcases hmk : mkShape v range68pts s1 with ⟨r2, s2, n2⟩
      cases r2 with
      | error e => simp [hmk]
      | ok shaper =>
        rcases hge : s2.get "face_encoder" with ⟨r3, s3, n3⟩
        cases r3 with
        | error e => simp [hmk, hge]; omega
        | ok fenc =>
          cases hpa : predictAll shaper.model img L with
          | error e => simp [hmk, hge, hpa]; omega
          | ok ptss =>
            cases hea : encodeAll fenc img j ptss with
            | error e => simp [hmk, hge, hpa, hea]; omega
            | ok encs => simp [hmk, hge, hpa, hea]; omega
  · rcases hdet : detect s img u with ⟨r1, s1, n1⟩
    cases r1 with
    | error e => simp [landmark, hdet]
    | ok L =>
      simp only [landmark, hdet]
      rcases hmk : mkShape v range68pts s1 with ⟨r2, s2, n2⟩
      cases r2 with
      | error e => simp [hmk]
      | ok shaper =>
        cases hpa : predictAll shaper.model img L with
        | error e => simp [hmk, hpa]
        | ok ptss =>
          rcases hms : mkShapes v s2 ptss with ⟨r3, s3, n3⟩
          cases r3 with
          | error e => simp [hmk, hpa, hms]; omega
          | ok shapes => simp [hmk, hpa, hms]; omega

/-! ## The Atlas container -/

/-- The DBSCAN clustering parameters held in `Atlas._dbscan`
(`eps=0.475, min_samples=2`). -/
structure DBSCANParams where
  eps : Rat
  minSamples : Nat
deriving DecidableEq, Repr

/-- The full field set of an `Atlas` instance (`self.__dict__`): `save`
pickles exactly these fields and `load` replaces exactly these fields. -/
structure AtlasState where
  elements : List Encoding
  clusters : List (Nat × List Encoding)
  groups   : Option (List (List Encoding))
  grouped  : Bool
  path     : String
  dbscan   : DBSCANParams
  kmeans   : Option Unit
deriving DecidableEq, Repr

namespace Atlas

/-- `Atlas.__init__(elements, path)`. -/
def init (elements : List Encoding) (path : String) : AtlasState :=
  { elements := elements
    clusters := []
    groups   := none
    grouped  := false
    path     := path
    dbscan   := ⟨475 / 1000, 2⟩
    kmeans   := none }

/-- `Atlas.group()`: an unimplemented stub (`pass`) — no state change. -/
def group (a : AtlasState) : AtlasState := a

/-- What a file at an Atlas path can hold: a pickled `__dict__` snapshot,
or bytes that fail to unpickle. -/
inductive FileContent where
  | atlasBlob (d : AtlasState)
  | corrupt
deriving DecidableEq, Repr

/-- The file system: a partial map from paths to file contents. -/
def FS := String → Option FileContent

/-- `Atlas.save()`: `pickle.dump(self.__dict__, fhandle)` to `self.path`,
overwriting any existing file. -/
def save (a : AtlasState) (fs : FS) : FS :=
  fun p => if p = a.path then some (.atlasBlob a) else fs p

/-- `Atlas.load()`: `open(self.path)` (raising `FileNotFoundError` when the
file is absent), then `pickle.load` (raising when the contents are
corrupt), and only after both succeed `self.__dict__.clear()` followed by
`self.__dict__.update(new_dict)`.  Returns the post-call state paired with
the raised exception, if any; both failure points precede any mutation. -/
def load (a : AtlasState) (fs : FS) : AtlasState × Option PyErr :=
  match fs a.path with
  | none => (a, some .fileNotFoundError)
  | some .corrupt => (a, some .unpicklingError)
  | some (.atlasBlob newDict) => (newDict, none)

/-- Configurations (atlas, file system) reachable from construction over
an initially empty file system via `group`, `save`, and `load`. -/
inductive Reach : AtlasState → FS → Prop where
  | init (elements : List Encoding) (path : String) :
      Reach (Atlas.init elements path) (fun _ => none)
  | group (a : AtlasState) (fs : FS) : Reach a fs → Reach (Atlas.group a) fs
  | save (a : AtlasState) (fs : FS) : Reach a fs → Reach a (Atlas.save a fs)
  | load (a : AtlasState) (fs : FS) : Reach a fs → Reach (Atlas.load a fs).1 fs

/-- Invariant carried by every reachable configuration: the atlas is
ungrouped with `groups = None` (since `group` is a stub), and every
pickled snapshot on disk is likewise. -/
theorem Reach.ungrouped {a : AtlasState} {fs : FS} (h : Reach a fs) :
    (a.grouped = false ∧ a.groups = none) ∧
    ∀ p d, fs p = some (.atlasBlob d) → d.grouped = false ∧ d.groups = none := by
  induction h with
  | init elements path =>
    exact ⟨⟨rfl, rfl⟩, fun p d hd => by simp at hd⟩
  | group a fs _ ih => exact ih
  | save a fs _ ih =>
    obtain ⟨ha, hfs⟩ := ih
    refine ⟨ha, fun p d hd => ?_⟩
    unfold Atlas.save at hd
    by_cases hp : p = a.path
    · rw [if_pos hp] at hd
      injection hd with hd
      injection hd with hd
      subst hd
      exact ha
    · rw [if_neg hp] at hd
      exact hfs p d hd
  | load a fs _ ih =>
    obtain ⟨ha, hfs⟩ := ih
    refine ⟨?_, hfs⟩
    unfold Atlas.load
    cases hf : fs a.path with
    | none => exact ha
    | some c =>
      cases c with
      | corrupt => exact ha
      | atlasBlob d => exact hfs a.path d hf

end Atlas

/-- C7: every Atlas reachable through its operations (construction,
`group`, `save`, `load`) satisfies `grouped = true ↔ groups ≠ None`;
with `group` a stub, both sides in fact remain false. -/
theorem atlas_grouped_iff_groups (a : AtlasState) (fs : Atlas.FS)
    (h : Atlas.Reach a fs) : a.grouped = true ↔ a.groups ≠ none := by
  obtain ⟨⟨hg, hgr⟩, -⟩ := h.ungrouped
  constructor
  · intro hc
    rw [hg] at hc
    cases hc
  · intro hc
    exact absurd hgr hc

/-- Witness for C7 at a freshly constructed Atlas over an empty disk. -/
theorem atlas_grouped_iff_groups_witness :
    (Atlas.init [] "faces.pickle").grouped = true ↔
      (Atlas.init [] "faces.pickle").groups ≠ none :=
  atlas_grouped_iff_groups (Atlas.init [] "faces.pickle") (fun _ => none)
    (Atlas.Reach.init [] "faces.pickle")

/-- C8: `save()` followed by `load()` on a fresh Atlas constructed with
the same path succeeds and reproduces the saved instance's `elements`,
`clusters`, `groups`, and `grouped` — the pickled `__dict__` replaces the
fresh instance's state wholesale. -/
theorem atlas_save_load_roundtrip (a : AtlasState) (fs : Atlas.FS)
    (elements2 : List Encoding) :
    (Atlas.load (Atlas.init elements2 a.path) (Atlas.save a fs)).2 = none ∧
    (Atlas.load (Atlas.init elements2 a.path) (Atlas.save a fs)).1.elements = a.elements ∧
    (Atlas.load (Atlas.init elements2 a.path) (Atlas.save a fs)).1.clusters = a.clusters ∧
    (Atlas.load (Atlas.init elements2 a.path) (Atlas.save a fs)).1.groups = a.groups ∧
    (Atlas.load (Atlas.init elements2 a.path) (Atlas.save a fs)).1.grouped = a.grouped := by
  simp [Atlas.load, Atlas.save, Atlas.init]

/-- C10: `Atlas.load` is atomic on failure: when the file at `path` is
absent or its contents fail to unpickle, the call raises with the
in-memory state unchanged — deserialization completes before
`__dict__.clear()` / `__dict__.update` run. -/
theorem atlas_load_atomic_on_failure (a : AtlasState) (fs : Atlas.FS)
    (h : (Atlas.load a fs).2 ≠ none) : (Atlas.load a fs).1 = a := by
  unfold Atlas.load at h ⊢
  cases hf : fs a.path with
  | none => rfl
  | some c =>
    cases c with
    | atlasBlob d =>
      rw [hf] at h
      simp at h
    | corrupt => rfl

/-- Witness for C10: loading from an empty disk fails and preserves the
freshly constructed state. -/
theorem atlas_load_atomic_on_failure_witness :
    (Atlas.load (Atlas.init [] "faces.pickle") (fun _ => none)).1 =
      Atlas.init [] "faces.pickle" :=
  atlas_load_atomic_on_failure (Atlas.init [] "faces.pickle") (fun _ => none)
    (by decide)

end Phantom
